import Mathlib

/-!
Shallow embedding of the notes service in `src/index.js`: a SQLite-backed
Express app with a user directory (`POST /users`, `GET /users/:id`) and a
note store (`GET /notes`, `POST /notes`, `PATCH /notes/:id`,
`DELETE /notes/:id`).  The durable store is modelled as a `List` of rows;
each HTTP handler becomes a pure function from the store (plus the
request's data and the current time) to a result and the new store.
Timestamps are the ISO strings the code produces, modelled as opaque
`String`s.
-/

namespace NotesApi

/-- A row of the `users` table (`id INTEGER PRIMARY KEY, username TEXT UNIQUE,
password TEXT`).  `password` is never written by any handler, so it stays
`none` (SQL `NULL`). -/
structure User where
  id : Int
  username : String
  password : Option String
deriving Repr, DecidableEq

/-- A row of the `notes` table (`id INTEGER PRIMARY KEY, title TEXT NOT NULL,
content TEXT NOT NULL, created_at DATETIME NOT NULL, updated_at DATETIME NOT
NULL, deleted_at DATETIME, is_hidden BOOLEAN NOT NULL, user_id INTEGER`). -/
structure Note where
  id : Int
  title : String
  content : String
  created_at : String
  updated_at : String
  deleted_at : Option String
  is_hidden : Bool
  user_id : Int
deriving Repr, DecidableEq

/-- Error outcomes the handlers produce: 400 validation errors, 404
not-found/forbidden responses, and 500 storage errors. -/
inductive ApiError where
  | validation : String → ApiError
  | notFound : String → ApiError
  | infra : String → ApiError
deriving Repr, DecidableEq

/-! ### Caller identity resolution (`userFromHeader`, index.js lines 37-45)

The middleware reads the `x-user-id` header; a missing or empty header is a
400 before any handler runs, otherwise the value goes through JavaScript
`parseInt(userId, 10)`: leading whitespace is skipped, an optional sign is
consumed, then the maximal run of decimal digits is taken; if that run is
empty the result is `NaN` (modelled as `none`), which matches no stored
`user_id`. -/

/-- Value of a run of decimal digits, most significant first (what
`parseInt` computes from the digit run it consumed). -/
def digitsVal (ds : List Char) : Nat :=
  ds.foldl (fun a c => a * 10 + (c.toNat - 48)) 0

/-- The digit-run stage of `parseInt`: `none` when no leading digit. -/
def jsParseDigits (cs : List Char) : Option Nat :=
  if cs.takeWhile Char.isDigit = [] then none
  else some (digitsVal (cs.takeWhile Char.isDigit))

/-- Stage of `parseInt` after whitespace skipping: optional sign, then digits. -/
def jsParseIntCore : List Char → Option Int
  | [] => none
  | c :: cs =>
    if c = '-' then (jsParseDigits cs).map (fun n => -(n : Int))
    else if c = '+' then (jsParseDigits cs).map (fun n => (n : Int))
    else (jsParseDigits (c :: cs)).map (fun n => (n : Int))

/-- JavaScript `parseInt(s, 10)`; `none` is the `NaN` result. -/
def jsParseInt10 (s : String) : Option Int :=
  jsParseIntCore (s.toList.dropWhile Char.isWhitespace)

/-- The `userFromHeader` middleware: `none`/empty header is a 400, otherwise
the parsed id (possibly the `NaN` sentinel `none`) is attached to the
request. -/
def userFromHeader (header : Option String) : Except ApiError (Option Int) :=
  match header with
  | none => Except.error (ApiError.validation "User ID header is required.")
  | some s =>
    if s = "" then Except.error (ApiError.validation "User ID header is required.")
    else Except.ok (jsParseInt10 s)

/-! ### User directory (`POST /users`, index.js lines 47-81) -/

/-- JavaScript falsiness of an optional string field (`!x` is true for a
missing field and for the empty string). -/
def strFalsy : Option String → Bool
  | none => true
  | some s => s == ""

/-- Rowid SQLite assigns when `INSERT INTO users (username)` omits the
integer primary key: one more than the largest id in the table. -/
def nextUserId (users : List User) : Int :=
  (users.map User.id).foldr max 0 + 1

/-- The row `INSERT INTO users (username) VALUES (?)` stores: the fresh
rowid, the given username, and a NULL password. -/
def freshUser (users : List User) (name : String) : User :=
  { id := nextUserId users, username := name, password := none }

/-- Handler of `POST /users`: missing username is a 400; inserting a duplicate username
trips the UNIQUE constraint, on which the handler instead SELECTs and
returns the existing row with 200; a fresh username is inserted and
answered 201 with the new id.  The `Nat` in the result is the HTTP
status. -/
def registerOrFetch (users : List User) (username : Option String) :
    Except ApiError (Nat × User) × List User :=
  if strFalsy username then
    (Except.error (ApiError.validation "Username is required."), users)
  else
    match users.find? (fun u => u.username == username.getD "") with
    | some u => (Except.ok (200, u), users)
    | none =>
      (Except.ok (201, { id := nextUserId users
                         username := username.getD ""
                         password := none }),
       users ++ [{ id := nextUserId users
                   username := username.getD ""
                   password := none }])

/-! ### Note store -/

/-- Filter of `GET /notes`:
`SELECT * FROM notes WHERE user_id = ? AND deleted_at IS NULL`. -/
def visScope (uid : Int) (n : Note) : Bool :=
  n.user_id == uid && n.deleted_at == none

/-- Handler of `GET /notes` (index.js lines 98-110): all live notes of the caller, in
storage order. -/
def listVisible (db : List Note) (uid : Int) : List Note :=
  db.filter (visScope uid)

/-- Request body of `POST /notes`; every field the handler destructures is
optional at the JSON level. -/
structure NoteCreateBody where
  id : Option Int
  title : Option String
  content : Option String
  is_hidden : Option Bool
  createdAt : Option String
deriving Repr, DecidableEq

/-- The note `POST /notes` assembles after applying its destructuring
defaults: `id = Date.now()` (the millisecond clock `nowMs`), `is_hidden =
false`, `createdAt = new Date().toISOString()` (`nowIso`); `updated_at` is
bound to the same resolved `createdAt` and `user_id` to the caller. -/
def resolvedNote (uid : Int) (body : NoteCreateBody) (nowMs : Int) (nowIso : String) : Note :=
  { id := body.id.getD nowMs
    title := body.title.getD ""
    content := body.content.getD ""
    created_at := body.createdAt.getD nowIso
    updated_at := body.createdAt.getD nowIso
    deleted_at := none
    is_hidden := body.is_hidden.getD false
    user_id := uid }

/-- Handler of `POST /notes` (index.js lines 112-143): falsy title or content is a 400
before the INSERT; a duplicate primary key makes the INSERT fail with a 500;
otherwise exactly the resolved row is appended and returned with 201. -/
def createNote (db : List Note) (uid : Int) (body : NoteCreateBody)
    (nowMs : Int) (nowIso : String) : Except ApiError Note × List Note :=
  if strFalsy body.title || strFalsy body.content then
    (Except.error (ApiError.validation "Title and content are required."), db)
  else if db.any (fun n => n.id == body.id.getD nowMs) then
    (Except.error (ApiError.infra "UNIQUE constraint failed: notes.id"), db)
  else
    (Except.ok (resolvedNote uid body nowMs nowIso),
     db ++ [resolvedNote uid body nowMs nowIso])

/-- Patch body of `PATCH /notes/:id`; `none` is an absent (`undefined`)
field, `some` a supplied one (including the empty string). -/
structure NotePatch where
  title : Option String
  content : Option String
  is_hidden : Option Bool
deriving Repr, DecidableEq

/-- The handler's zero-field guard
(`title === undefined && content === undefined && is_hidden === undefined`). -/
def emptyPatch (p : NotePatch) : Bool :=
  p.title == none && p.content == none && p.is_hidden == none

/-- WHERE clause of the UPDATE:
`id = ? AND user_id = ? AND deleted_at IS NULL`. -/
def updateScope (nid uid : Int) (n : Note) : Bool :=
  n.id == nid && n.user_id == uid && n.deleted_at == none

/-- The `SET` effect of the dynamic UPDATE on one row: each supplied field is
overwritten, and `updated_at` is always set to the request time. -/
def applyPatch (p : NotePatch) (now : String) (n : Note) : Note :=
  { n with title := p.title.getD n.title
           content := p.content.getD n.content
           is_hidden := p.is_hidden.getD n.is_hidden
           updated_at := now }

/-- Effect of running the UPDATE statement over the table: rows inside the
scope are patched, all others are untouched. -/
def updateApply (uid nid : Int) (p : NotePatch) (now : String) (db : List Note) : List Note :=
  db.map (fun n => if updateScope nid uid n then applyPatch p now n else n)

/-- Value of `this.changes` of the UPDATE: how many rows the WHERE clause matched. -/
def updateChanges (uid nid : Int) (db : List Note) : Nat :=
  (db.filter (updateScope nid uid)).length

/-- Handler of `PATCH /notes/:id` (index.js lines 145-192): an all-absent patch is a
400 before any storage access; otherwise the scoped UPDATE runs, and zero
affected rows is answered 404. -/
def updateNote (db : List Note) (uid nid : Int) (p : NotePatch) (now : String) :
    Except ApiError String × List Note :=
  if emptyPatch p then
    (Except.error (ApiError.validation
      "At least one field (title, content, is_hidden) must be provided."), db)
  else if updateChanges uid nid db == 0 then
    (Except.error (ApiError.notFound
      "Note not found or you do not have permission to edit it."),
     updateApply uid nid p now db)
  else
    (Except.ok "Note updated successfully.", updateApply uid nid p now db)

/-- WHERE clause of the soft delete: `id = ? AND user_id = ?` — note the
absence of a `deleted_at IS NULL` conjunct. -/
def deleteScope (nid uid : Int) (n : Note) : Bool :=
  n.id == nid && n.user_id == uid

/-- Effect of `UPDATE notes SET deleted_at = ? WHERE id = ? AND user_id = ?`
on the table. -/
def deleteApply (uid nid : Int) (now : String) (db : List Note) : List Note :=
  db.map (fun n => if deleteScope nid uid n then { n with deleted_at := some now } else n)

/-- Value of `this.changes` of the soft-delete UPDATE. -/
def deleteChanges (uid nid : Int) (db : List Note) : Nat :=
  (db.filter (deleteScope nid uid)).length

/-- Handler of `DELETE /notes/:id` (index.js lines 194-212): stamps `deleted_at` on
every row with the given id and owner; zero affected rows is a 404. -/
def softDelete (db : List Note) (uid nid : Int) (now : String) :
    Except ApiError String × List Note :=
  if deleteChanges uid nid db == 0 then
    (Except.error (ApiError.notFound
      "Note not found or you do not have permission to delete it."),
     deleteApply uid nid now db)
  else
    (Except.ok "Note deleted successfully.", deleteApply uid nid now db)

/-! ### Helper lemmas -/

lemma map_eq_self_of_mem {α : Type} {f : α → α} :
    ∀ {l : List α}, (∀ a ∈ l, f a = a) → l.map f = l
  | [], _ => rfl
  | a :: l, h => by
    rw [List.map_cons, h a (List.mem_cons_self _ _),
      map_eq_self_of_mem (fun b hb => h b (List.mem_cons_of_mem _ hb))]

lemma map_map_eq_of {α β : Type} (f : α → α) (g : α → β) (h : ∀ a, g (f a) = g a) :
    ∀ l : List α, (l.map f).map g = l.map g
  | [] => rfl
  | a :: l => by rw [List.map_cons, List.map_cons, h a, map_map_eq_of f g h l, List.map_cons]

/-- The second component of `updateNote` is always the result of the scoped
UPDATE once the patch is non-empty. -/
lemma updateNote_snd (db : List Note) (uid nid : Int) (p : NotePatch) (now : String)
    (hp : emptyPatch p = false) :
    (updateNote db uid nid p now).2 = updateApply uid nid p now db := by
  unfold updateNote
  rw [hp]
  simp only [Bool.false_eq_true, if_false]
  split <;> rfl

/-- The second component of `softDelete` is always the result of the scoped
UPDATE. -/
lemma softDelete_snd (db : List Note) (uid nid : Int) (now : String) :
    (softDelete db uid nid now).2 = deleteApply uid nid now db := by
  unfold softDelete
  split <;> rfl

/-- After the soft-delete UPDATE has run, no note with the deleted id is in
the owner's visible list. -/
lemma deleted_excluded (db : List Note) (U N : Int) (now : String) :
    ∀ r ∈ listVisible (deleteApply U N now db) U, r.id ≠ N := by
  intro r hr hid
  rw [listVisible, List.mem_filter] at hr
  obtain ⟨hmem, hvis⟩ := hr
  rw [deleteApply, List.mem_map] at hmem
  obtain ⟨a, _, ha⟩ := hmem
  rw [visScope, Bool.and_eq_true, beq_iff_eq, beq_iff_eq] at hvis
  by_cases hs : deleteScope N U a = true
  · rw [if_pos hs] at ha
    rw [← ha] at hvis
    exact Option.some_ne_none now hvis.2
  · rw [if_neg (by simp [hs])] at ha
    subst ha
    rw [deleteScope, Bool.and_eq_true, beq_iff_eq, beq_iff_eq] at hs
    exact hs ⟨hid, hvis.1⟩

lemma find?_append_of_none {α : Type} (p : α → Bool) :
    ∀ (l₁ l₂ : List α), (∀ x ∈ l₁, p x = false) → (l₁ ++ l₂).find? p = l₂.find? p
  | [], _, _ => rfl
  | a :: l₁, l₂, h => by
    rw [List.cons_append,
      List.find?_cons_of_neg _ (by simp [h a (List.mem_cons_self _ _)]),
      find?_append_of_none p l₁ l₂ (fun x hx => h x (List.mem_cons_of_mem _ hx))]

lemma updateApply_created_at (uid nid : Int) (p : NotePatch) (now : String) (db : List Note) :
    (updateApply uid nid p now db).map Note.created_at = db.map Note.created_at := by
  rw [updateApply]
  exact map_map_eq_of _ _ (fun a => by split <;> rfl) db

lemma deleteApply_created_at (uid nid : Int) (now : String) (db : List Note) :
    (deleteApply uid nid now db).map Note.created_at = db.map Note.created_at := by
  rw [deleteApply]
  exact map_map_eq_of _ _ (fun a => by split <;> rfl) db

lemma deleteApply_updated_at (uid nid : Int) (now : String) (db : List Note) :
    (deleteApply uid nid now db).map Note.updated_at = db.map Note.updated_at := by
  rw [deleteApply]
  exact map_map_eq_of _ _ (fun a => by split <;> rfl) db

/-! ### The claims -/

/-- C6: a `PATCH /notes/:id` request whose body supplies none of `title`,
`content`, `is_hidden` is rejected with the validation error and every
stored row is left unchanged (no storage access happens). -/
theorem update_empty_patch_rejected (db : List Note) (uid nid : Int) (p : NotePatch)
    (now : String) (h1 : p.title = none) (h2 : p.content = none) (h3 : p.is_hidden = none) :
    updateNote db uid nid p now =
      (Except.error (ApiError.validation
        "At least one field (title, content, is_hidden) must be provided."), db) := by
  have he : emptyPatch p = true := by
    rw [emptyPatch, h1, h2, h3]
    rfl
  unfold updateNote
  rw [he]
  rfl

/-- Witness for `update_empty_patch_rejected` at a concrete store and
patch. -/
theorem update_empty_patch_rejected_witness :
    updateNote [{ id := 1, title := "T", content := "C", created_at := "t0",
                  updated_at := "t0", deleted_at := none, is_hidden := false,
                  user_id := 1 }] 1 1 ⟨none, none, none⟩ "t1" =
      (Except.error (ApiError.validation
        "At least one field (title, content, is_hidden) must be provided."),
       [{ id := 1, title := "T", content := "C", created_at := "t0",
          updated_at := "t0", deleted_at := none, is_hidden := false,
          user_id := 1 }]) :=
  update_empty_patch_rejected _ 1 1 _ _ rfl rfl rfl

/-- C1: with a non-empty patch, the `PATCH /notes/:id` UPDATE only ever
alters rows matching `id = nid AND user_id = uid AND deleted_at IS NULL`
(every row outside that scope is returned verbatim, and no row is added or
dropped), and when no row matches the handler answers with the single
not-found/forbidden error and the store is left exactly as it was. -/
theorem update_scoped (db : List Note) (uid nid : Int) (p : NotePatch) (now : String)
    (hp : emptyPatch p = false) :
    (∀ (i : Nat) (hi : i < db.length), updateScope nid uid db[i] = false →
      ((updateNote db uid nid p now).2)[i]? = some db[i]) ∧
    ((updateNote db uid nid p now).2).length = db.length ∧
    ((∀ n ∈ db, updateScope nid uid n = false) →
      updateNote db uid nid p now =
        (Except.error (ApiError.notFound
          "Note not found or you do not have permission to edit it."), db)) := by
  refine ⟨?_, ?_, ?_⟩
  · intro i hi hsc
    rw [updateNote_snd db uid nid p now hp, updateApply, List.getElem?_map,
      List.getElem?_eq_getElem hi]
    simp only [Option.map_some']
    rw [if_neg (by simp [hsc])]
  · rw [updateNote_snd db uid nid p now hp, updateApply, List.length_map]
  · intro hall
    have hz : updateChanges uid nid db = 0 := by
      rw [updateChanges, List.length_eq_zero, List.filter_eq_nil_iff]
      intro a ha
      simp [hall a ha]
    have hfix : updateApply uid nid p now db = db := by
      rw [updateApply]
      exact map_eq_self_of_mem (fun a ha => by rw [if_neg (by simp [hall a ha])])
    unfold updateNote
    rw [hp, hz, hfix]
    rfl

/-- Witness for `update_scoped`: the sole stored note belongs to user 2, so
user 1's update is answered 404 and the store is untouched. -/
theorem update_scoped_witness :
    updateNote [{ id := 5, title := "T", content := "C", created_at := "t0",
                  updated_at := "t0", deleted_at := none, is_hidden := false,
                  user_id := 2 }] 1 5 ⟨some "X", none, none⟩ "t1" =
      (Except.error (ApiError.notFound
        "Note not found or you do not have permission to edit it."),
       [{ id := 5, title := "T", content := "C", created_at := "t0",
          updated_at := "t0", deleted_at := none, is_hidden := false,
          user_id := 2 }]) :=
  (update_scoped [{ id := 5, title := "T", content := "C", created_at := "t0",
                    updated_at := "t0", deleted_at := none, is_hidden := false,
                    user_id := 2 }] 1 5 ⟨some "X", none, none⟩ "t1" rfl).2.2 (by decide)

/-- C2: `listVisible U` returns exactly the stored rows owned by `U` whose
`deleted_at` is NULL (a pure filter, so an empty list — never an error —
when nothing matches); a freshly created note is in its owner's visible
list, and after a soft delete the note's id is gone from the visible list
although the row count of the store is unchanged. -/
theorem listVisible_spec :
    (∀ (db : List Note) (U : Int) (n : Note),
      n ∈ listVisible db U ↔ n ∈ db ∧ n.user_id = U ∧ n.deleted_at = none) ∧
    (∀ (db : List Note) (uid : Int) (body : NoteCreateBody) (nowMs : Int) (nowIso : String)
      (note : Note) (db2 : List Note),
      createNote db uid body nowMs nowIso = (Except.ok note, db2) →
      note ∈ listVisible db2 uid) ∧
    (∀ (db : List Note) (U N : Int) (now : String),
      (∀ r ∈ listVisible (softDelete db U N now).2 U, r.id ≠ N) ∧
      ((softDelete db U N now).2).length = db.length) := by
  refine ⟨?_, ?_, ?_⟩
  · intro db U n
    rw [listVisible, List.mem_filter]
    simp only [visScope, Bool.and_eq_true, beq_iff_eq]
  · intro db uid body nowMs nowIso note db2 h
    unfold createNote at h
    by_cases h1 : (strFalsy body.title || strFalsy body.content) = true
    · rw [if_pos h1] at h
      simp at h
    · rw [if_neg h1] at h
      by_cases h2 : db.any (fun n => n.id == body.id.getD nowMs) = true
      · rw [if_pos h2] at h
        simp at h
      · rw [if_neg h2] at h
        have hn : note = resolvedNote uid body nowMs nowIso := by
          have hfst := congrArg Prod.fst h
          simp only [Except.ok.injEq] at hfst
          exact hfst.symm
        have hd : db2 = db ++ [resolvedNote uid body nowMs nowIso] := by
          exact (congrArg Prod.snd h).symm
        subst hn
        subst hd
        rw [listVisible, List.mem_filter]
        refine ⟨List.mem_append_right _ (List.mem_singleton_self _), ?_⟩
        simp [visScope, resolvedNote]
  · intro db U N now
    constructor
    · rw [softDelete_snd]
      exact deleted_excluded db U N now
    · rw [softDelete_snd, deleteApply, List.length_map]

/-- Witness for `listVisible_spec`: creating a note into an empty store
puts it in the creator's visible list. -/
theorem listVisible_spec_witness :
    resolvedNote 1 ⟨none, some "T", some "C", none, none⟩ 99 "t0" ∈
      listVisible [resolvedNote 1 ⟨none, some "T", some "C", none, none⟩ 99 "t0"] 1 :=
  listVisible_spec.2.1 [] 1 ⟨none, some "T", some "C", none, none⟩ 99 "t0" _ _ rfl

/-- C3: the soft-delete WHERE clause checks only id and owner, so invoked on
an already soft-deleted note it still reports success, re-stamps
`deleted_at` with the request's current time, and the note stays out of the
owner's visible list. -/
theorem softDelete_idempotent_success (db : List Note) (U N : Int) (now : String) (r : Note)
    (hr : r ∈ db) (hid : r.id = N) (hu : r.user_id = U) (_hdel : r.deleted_at ≠ none) :
    (softDelete db U N now).1 = Except.ok "Note deleted successfully." ∧
    (∀ r' ∈ (softDelete db U N now).2, r'.id = N → r'.user_id = U →
      r'.deleted_at = some now) ∧
    (∀ r' ∈ listVisible (softDelete db U N now).2 U, r'.id ≠ N) := by
  have hscope : deleteScope N U r = true := by
    rw [deleteScope, Bool.and_eq_true, beq_iff_eq, beq_iff_eq]
    exact ⟨hid, hu⟩
  have hch : deleteChanges U N db ≠ 0 := by
    rw [deleteChanges]
    intro h0
    rw [List.length_eq_zero] at h0
    have hmem : r ∈ List.filter (deleteScope N U) db := List.mem_filter.mpr ⟨hr, hscope⟩
    rw [h0] at hmem
    exact absurd hmem (List.not_mem_nil r)
  have hcond : (deleteChanges U N db == 0) = false := by
    rw [beq_eq_false_iff_ne]
    exact hch
  refine ⟨?_, ?_, ?_⟩
  · unfold softDelete
    rw [hcond]
    rfl
  · intro r' hr' hid' hu'
    rw [softDelete_snd, deleteApply, List.mem_map] at hr'
    obtain ⟨a, ha, hfa⟩ := hr'
    by_cases hs : deleteScope N U a = true
    · rw [if_pos hs] at hfa
      rw [← hfa]
    · rw [if_neg (by simp [hs])] at hfa
      subst hfa
      exact absurd (by rw [deleteScope, Bool.and_eq_true, beq_iff_eq, beq_iff_eq]
                       exact ⟨hid', hu'⟩) hs
  · rw [softDelete_snd]
    exact deleted_excluded db U N now

/-- Witness for `softDelete_idempotent_success`: re-deleting an
already-deleted note succeeds. -/
theorem softDelete_idempotent_success_witness :
    (softDelete [{ id := 1, title := "T", content := "C", created_at := "t0",
                   updated_at := "t0", deleted_at := some "t1", is_hidden := false,
                   user_id := 1 }] 1 1 "t2").1 =
      Except.ok "Note deleted successfully." :=
  (softDelete_idempotent_success _ 1 1 "t2" _ (List.mem_singleton_self _) rfl rfl
    (Option.some_ne_none "t1")).1

/-- C4: registering a username that is not yet stored inserts exactly one
row and answers 201 with the new id; registering it again inserts nothing
(the store is unchanged) and answers 200 with the very same pre-existing
row, hence the same id. -/
theorem register_or_fetch_twice (users : List User) (name : String) (hne : name ≠ "")
    (hfresh : ∀ u ∈ users, u.username ≠ name) :
    registerOrFetch users (some name) =
      (Except.ok (201, freshUser users name), users ++ [freshUser users name]) ∧
    registerOrFetch (users ++ [freshUser users name]) (some name) =
      (Except.ok (200, freshUser users name), users ++ [freshUser users name]) := by
  have hfal : strFalsy (some name) = false := by
    simp only [strFalsy]
    exact beq_eq_false_iff_ne.mpr hne
  have hfind1 : users.find? (fun u => u.username == (some name).getD "") = none := by
    rw [List.find?_eq_none]
    intro u hu
    simp [hfresh u hu]
  constructor
  · unfold registerOrFetch
    rw [hfal]
    simp only [Bool.false_eq_true, if_false]
    rw [hfind1]
    rfl
  · unfold registerOrFetch
    rw [hfal]
    simp only [Bool.false_eq_true, if_false]
    have hfind2 : (users ++ [freshUser users name]).find?
        (fun u => u.username == (some name).getD "") = some (freshUser users name) := by
      rw [find?_append_of_none _ users _ (fun u hu => by simp [hfresh u hu])]
      rw [List.find?_cons_of_pos _ (by simp [freshUser])]
    rw [hfind2]

/-- Witness for `register_or_fetch_twice` on an empty user table. -/
theorem register_or_fetch_twice_witness :
    registerOrFetch [] (some "alice") =
      (Except.ok (201, freshUser [] "alice"), [freshUser [] "alice"]) ∧
    registerOrFetch [freshUser [] "alice"] (some "alice") =
      (Except.ok (200, freshUser [] "alice"), [freshUser [] "alice"]) :=
  register_or_fetch_twice [] "alice" (by decide)
    (by intro u hu; exact absurd hu (List.not_mem_nil u))

/-- C5 as stated is false: the soft-delete handler's SQL sets only
`deleted_at`, so a successful `DELETE /notes/:id` leaves `updated_at`
untouched — here a live owned note is deleted successfully at time `"t1"`
yet its `updated_at` still reads `"t0"`. -/
theorem softDelete_updated_at_counterexample :
    (softDelete [{ id := 1, title := "T", content := "C", created_at := "t0",
                   updated_at := "t0", deleted_at := none, is_hidden := false,
                   user_id := 1 }] 1 1 "t1").1 = Except.ok "Note deleted successfully." ∧
    ((softDelete [{ id := 1, title := "T", content := "C", created_at := "t0",
                    updated_at := "t0", deleted_at := none, is_hidden := false,
                    user_id := 1 }] 1 1 "t1").2).map Note.updated_at = ["t0"] ∧
    ("t0" : String) ≠ "t1" :=
  ⟨rfl, rfl, by decide⟩

/-- C5 (amended): `created_at` is never revised by the partial update or by
the soft delete; `updated_at` is rewritten to the current time on every row
altered by a successful partial update; the soft delete, however, does not
touch `updated_at` (it rewrites only `deleted_at`). -/
theorem timestamps_frame :
    (∀ (db : List Note) (uid nid : Int) (p : NotePatch) (now : String),
      ((updateNote db uid nid p now).2).map Note.created_at = db.map Note.created_at) ∧
    (∀ (db : List Note) (uid nid : Int) (now : String),
      ((softDelete db uid nid now).2).map Note.created_at = db.map Note.created_at) ∧
    (∀ (db : List Note) (uid nid : Int) (now : String),
      ((softDelete db uid nid now).2).map Note.updated_at = db.map Note.updated_at) ∧
    (∀ (db : List Note) (uid nid : Int) (p : NotePatch) (now : String) (i : Nat),
      emptyPatch p = false → ∀ hi : i < db.length, updateScope nid uid db[i] = true →
        (((updateNote db uid nid p now).2)[i]?).map Note.updated_at = some now) := by
  refine ⟨?_, ?_, ?_, ?_⟩
  · intro db uid nid p now
    unfold updateNote
    split
    · rfl
    · split
      · exact updateApply_created_at uid nid p now db
      · exact updateApply_created_at uid nid p now db
  · intro db uid nid now
    rw [softDelete_snd]
    exact deleteApply_created_at uid nid now db
  · intro db uid nid now
    rw [softDelete_snd]
    exact deleteApply_updated_at uid nid now db
  · intro db uid nid p now i hp hi hsc
    rw [updateNote_snd db uid nid p now hp, updateApply, List.getElem?_map,
      List.getElem?_eq_getElem hi]
    simp only [Option.map_some']
    rw [if_pos hsc]
    rfl

/-- Witness for `timestamps_frame`: a successful patch stamps the row's
`updated_at` with the request time. -/
theorem timestamps_frame_witness :
    (((updateNote [{ id := 1, title := "T", content := "C", created_at := "t0",
                     updated_at := "t0", deleted_at := none, is_hidden := false,
                     user_id := 1 }] 1 1 ⟨some "X", none, none⟩ "t1").2)[0]?).map
        Note.updated_at = some "t1" :=
  timestamps_frame.2.2.2 [{ id := 1, title := "T", content := "C", created_at := "t0",
                            updated_at := "t0", deleted_at := none, is_hidden := false,
                            user_id := 1 }] 1 1 ⟨some "X", none, none⟩ "t1" 0
    rfl (by decide) (by decide)

/-- C7: a successful create with `is_hidden` and `createdAt` omitted
resolves `is_hidden` to `false` and `created_at` to the current time, sets
`updated_at` equal to the resolved `created_at`, appends exactly one row
whose `user_id` is the caller's identity, and returns that fully resolved
note. -/
theorem createNote_defaults (db : List Note) (uid : Int) (body : NoteCreateBody)
    (nowMs : Int) (nowIso : String) (t c : String)
    (hT : body.title = some t) (ht : t ≠ "")
    (hC : body.content = some c) (hc : c ≠ "")
    (hH : body.is_hidden = none) (hCA : body.createdAt = none)
    (hid : ∀ n ∈ db, n.id ≠ body.id.getD nowMs) :
    createNote db uid body nowMs nowIso =
      (Except.ok { id := body.id.getD nowMs, title := t, content := c,
                   created_at := nowIso, updated_at := nowIso, deleted_at := none,
                   is_hidden := false, user_id := uid },
       db ++ [{ id := body.id.getD nowMs, title := t, content := c,
                created_at := nowIso, updated_at := nowIso, deleted_at := none,
                is_hidden := false, user_id := uid }]) := by
  have hres : resolvedNote uid body nowMs nowIso =
      { id := body.id.getD nowMs, title := t, content := c, created_at := nowIso,
        updated_at := nowIso, deleted_at := none, is_hidden := false, user_id := uid } := by
    rw [resolvedNote, hT, hC, hH, hCA]
    rfl
  have hval : (strFalsy body.title || strFalsy body.content) = false := by
    rw [hT, hC]
    simp only [strFalsy]
    rw [beq_eq_false_iff_ne.mpr ht, beq_eq_false_iff_ne.mpr hc]
    rfl
  have hany : db.any (fun n => n.id == body.id.getD nowMs) = false := by
    rw [List.any_eq_false]
    intro n hn
    simp [hid n hn]
  unfold createNote
  rw [hval, hany, hres]
  rfl

/-- Witness for `createNote_defaults` on an empty store with an explicit
id. -/
theorem createNote_defaults_witness :
    createNote [] 7 ⟨some 42, some "T", some "C", none, none⟩ 99 "iso" =
      (Except.ok { id := 42, title := "T", content := "C", created_at := "iso",
                   updated_at := "iso", deleted_at := none, is_hidden := false,
                   user_id := 7 },
       [{ id := 42, title := "T", content := "C", created_at := "iso",
          updated_at := "iso", deleted_at := none, is_hidden := false, user_id := 7 }]) :=
  createNote_defaults [] 7 ⟨some 42, some "T", some "C", none, none⟩ 99 "iso" "T" "C"
    rfl (by decide) rfl (by decide) rfl rfl
    (by intro n hn; exact absurd hn (List.not_mem_nil n))

/-- C8: `is_hidden` is purely advisory for visibility — the `GET /notes`
filter reads only `user_id` and `deleted_at`, so rewriting `is_hidden` on
every row changes no inclusion decision of `listVisible`. -/
theorem is_hidden_advisory :
    (∀ (U : Int) (n : Note) (b : Bool), visScope U { n with is_hidden := b } = visScope U n) ∧
    (∀ (db : List Note) (U : Int) (b : Bool),
      listVisible (db.map (fun n => { n with is_hidden := b })) U =
        (listVisible db U).map (fun n => { n with is_hidden := b })) := by
  constructor
  · intro U n b
    rfl
  · intro db U b
    unfold listVisible
    induction db with
    | nil => rfl
    | cons n db ih =>
      rw [List.map_cons, List.filter_cons, List.filter_cons]
      by_cases h : visScope U n = true
      · rw [if_pos h, if_pos (show visScope U { n with is_hidden := b } = true from h),
          List.map_cons, ih]
      · rw [if_neg h, if_neg (show ¬visScope U { n with is_hidden := b } = true from h), ih]

lemma isDigit_not_whitespace {ch : Char} (h : ch.isDigit = true) : ch.isWhitespace = false := by
  cases hw : ch.isWhitespace
  · rfl
  · exfalso
    simp only [Char.isWhitespace, Bool.or_eq_true, decide_eq_true_eq] at hw
    rcases hw with ((h1 | h1) | h1) | h1 <;> (rw [h1] at h; exact absurd h (by decide))

lemma isDigit_not_sign {ch : Char} (h : ch.isDigit = true) : ch ≠ '-' ∧ ch ≠ '+' := by
  constructor <;> (intro he; rw [he] at h; exact absurd h (by decide))

lemma takeWhile_append_all (p : Char → Bool) :
    ∀ (ds rest : List Char), (∀ ch ∈ ds, p ch = true) →
      (∀ ch : Char, rest.head? = some ch → p ch = false) →
      (ds ++ rest).takeWhile p = ds
  | [], [], _, _ => rfl
  | [], r :: rs, _, h2 => by
    rw [List.nil_append, List.takeWhile_cons, h2 r rfl]
    rfl
  | d :: ds, rest, h1, h2 => by
    rw [List.cons_append, List.takeWhile_cons, h1 d (List.mem_cons_self _ _),
      takeWhile_append_all p ds rest (fun x hx => h1 x (List.mem_cons_of_mem _ hx)) h2]
    rfl

/-- C9: the patch validation checks only field presence, not content — a
patch carrying `title = ""` on a live owned note is accepted and the empty
string is stored, although `createNote` rejects an empty title before any
storage access; the non-empty-text property of creation is not preserved by
update. -/
theorem update_presence_only (db : List Note) (U N : Int) (now : String) (i : Nat)
    (hi : i < db.length) (hid : db[i].id = N) (hu : db[i].user_id = U)
    (hlive : db[i].deleted_at = none) :
    (updateNote db U N ⟨some "", none, none⟩ now).1 =
      Except.ok "Note updated successfully." ∧
    (((updateNote db U N ⟨some "", none, none⟩ now).2)[i]?).map Note.title = some "" ∧
    (∀ (db2 : List Note) (uid2 : Int) (body : NoteCreateBody) (ms : Int) (iso : String),
      body.title = some "" →
      (createNote db2 uid2 body ms iso).1 =
        Except.error (ApiError.validation "Title and content are required.")) := by
  have hp : emptyPatch ⟨some "", none, none⟩ = false := rfl
  have hscope : updateScope N U db[i] = true := by
    rw [updateScope, Bool.and_eq_true, Bool.and_eq_true]
    refine ⟨⟨?_, ?_⟩, ?_⟩ <;> rw [beq_iff_eq]
    · exact hid
    · exact hu
    · exact hlive
  have hch : updateChanges U N db ≠ 0 := by
    rw [updateChanges]
    intro h0
    rw [List.length_eq_zero] at h0
    have hmem : db[i] ∈ List.filter (updateScope N U) db :=
      List.mem_filter.mpr ⟨List.getElem_mem hi, hscope⟩
    rw [h0] at hmem
    exact absurd hmem (List.not_mem_nil _)
  refine ⟨?_, ?_, ?_⟩
  · unfold updateNote
    rw [hp, beq_eq_false_iff_ne.mpr hch]
    rfl
  · rw [updateNote_snd db U N ⟨some "", none, none⟩ now hp, updateApply,
      List.getElem?_map, List.getElem?_eq_getElem hi]
    simp only [Option.map_some']
    rw [if_pos hscope]
    rfl
  · intro db2 uid2 body ms iso hbt
    unfold createNote
    rw [hbt]
    simp [strFalsy]

/-- Witness for `update_presence_only`: blanking the title of a live owned
note succeeds. -/
theorem update_presence_only_witness :
    (updateNote [{ id := 1, title := "T", content := "C", created_at := "t0",
                   updated_at := "t0", deleted_at := none, is_hidden := false,
                   user_id := 1 }] 1 1 ⟨some "", none, none⟩ "t1").1 =
      Except.ok "Note updated successfully." :=
  (update_presence_only [{ id := 1, title := "T", content := "C", created_at := "t0",
                           updated_at := "t0", deleted_at := none, is_hidden := false,
                           user_id := 1 }] 1 1 "t1" 0 (by decide) rfl rfl rfl).1

/-- C10: the identity header goes through base-10 integer-prefix parsing —
a header of decimal digits followed by non-digit characters resolves to the
value of the digit prefix, and the `NaN` sentinel can only arise from a
header whose first character is not a digit (a leading digit always parses
to a number). -/
theorem userFromHeader_leading_digits (s : String) (ds rest : List Char)
    (hs : s.toList = ds ++ rest) (hne : ds ≠ [])
    (hdig : ∀ ch ∈ ds, ch.isDigit = true)
    (hrest : ∀ ch : Char, rest.head? = some ch → ch.isDigit = false) :
    userFromHeader (some s) = Except.ok (some (Int.ofNat (digitsVal ds))) ∧
    (∀ (t : String) (c : Char) (cs : List Char),
      t.toList = c :: cs → c.isDigit = true → jsParseInt10 t ≠ none) := by
  constructor
  · obtain ⟨d, ds', rfl⟩ : ∃ d ds', ds = d :: ds' := by
      cases ds with
      | nil => exact absurd rfl hne
      | cons d ds' => exact ⟨d, ds', rfl⟩
    have hd : d.isDigit = true := hdig d (List.mem_cons_self _ _)
    have hsne : s ≠ "" := by
      intro h0
      rw [h0] at hs
      exact absurd hs.symm (List.cons_ne_nil _ _)
    have hstep : userFromHeader (some s) = Except.ok (jsParseInt10 s) := by
      simp only [userFromHeader]
      rw [if_neg hsne]
    have hparse : jsParseInt10 s = some (Int.ofNat (digitsVal (d :: ds'))) := by
      rw [jsParseInt10, hs, List.cons_append, List.dropWhile_cons,
        isDigit_not_whitespace hd]
      simp only [Bool.false_eq_true, if_false]
      simp only [jsParseIntCore]
      rw [if_neg (isDigit_not_sign hd).1, if_neg (isDigit_not_sign hd).2]
      have htw : ((d :: ds') ++ rest).takeWhile Char.isDigit = d :: ds' :=
        takeWhile_append_all Char.isDigit (d :: ds') rest hdig hrest
      rw [List.cons_append] at htw
      rw [jsParseDigits, htw] at *
      rw [if_neg (List.cons_ne_nil d ds')]
      rfl
    rw [hstep, hparse]
  · intro t c cs htl hc
    rw [jsParseInt10, htl, List.dropWhile_cons, isDigit_not_whitespace hc]
    simp only [Bool.false_eq_true, if_false]
    simp only [jsParseIntCore]
    rw [if_neg (isDigit_not_sign hc).1, if_neg (isDigit_not_sign hc).2]
    have htw : (c :: cs).takeWhile Char.isDigit = c :: cs.takeWhile Char.isDigit := by
      rw [List.takeWhile_cons, hc]
      rfl
    rw [jsParseDigits, htw, if_neg (List.cons_ne_nil _ _)]
    simp

/-- Witness for `userFromHeader_leading_digits` at the header "7abc". -/
theorem userFromHeader_leading_digits_witness :
    userFromHeader (some "7abc") = Except.ok (some (Int.ofNat 7)) :=
  (userFromHeader_leading_digits "7abc" ['7'] ['a', 'b', 'c'] (by decide) (by decide)
    (by decide)
    (fun ch hch => by
      have h1 : 'a' = ch := by
        have h2 : some 'a' = some ch := hch
        injection h2
      rw [← h1]
      rfl)).1

end NotesApi
